import Mathlib

/-!
Shallow embedding of the scalar codecs of the slurm data_parser v0.0.41
plugin (src/plugins/data_parser/v0.0.41/parsers.c) and of the purge sweep of
the generic burst-buffer plugin
(src/plugins/burst_buffer/generic/burst_buffer_generic.c), together with
theorems about the embedded code.

Machine integers are modelled as Nat (unsigned fields, holding the bit
pattern) and Int (signed values); every C cast to a fixed width is an
explicit mod-2^w operation.  A C parse function `int f(parser, void *obj,
data_t *src, args_t *args, ...)` becomes a Lean function from the source
node and the previous destination value to a result record holding the
returned rc, the final destination value (equal to the previous one when the
C code does not write through the pointer) and the warnings appended to the
ambient args.  Diagnostic message strings are reduced to short tags; fatal
diagnostics are reflected in the returned rc.
-/

namespace Slurm

/-- Modelled from the spec (sentinel table of 4.2; slurm.h is not part of the
excerpt): 16-bit unset sentinel. -/
def NO_VAL16 : Nat := 0xFFFF

/-- Modelled from the spec: 16-bit infinite sentinel. -/
def INFINITE16 : Nat := 0xFFFE

/-- Modelled from the spec: 32-bit unset sentinel, 0xFFFFFFFF. -/
def NO_VAL : Nat := 0xFFFFFFFF

/-- Modelled from the spec: 32-bit infinite sentinel, 0xFFFFFFFE. -/
def INFINITE : Nat := 0xFFFFFFFE

/-- Modelled from the spec: 64-bit unset sentinel (all ones). -/
def NO_VAL64 : Nat := 0xFFFFFFFFFFFFFFFF

/-- Modelled from the spec: 64-bit infinite sentinel. -/
def INFINITE64 : Nat := 0xFFFFFFFFFFFFFFFE

/-- Modelled from the spec (4.2 Nice): the nice offset; the parsers.c error
message names the bound NICE_OFFSET - 3 = 2147483645, hence 2^31. -/
def NICE_OFFSET : Int := 0x80000000

/-- Modelled from the spec (4.2): the high bit of a 64-bit memory field tags
memory-per-CPU. -/
def MEM_PER_CPU : Nat := 0x8000000000000000

/-- Modelled from the spec (4.2): the high bit of the 16-bit core
specification field tags a thread specification. -/
def CORE_SPEC_THREAD : Nat := 0x8000

/-- Modelled from the spec (4.2 Signal): the platform SIGRTMAX bound used by
the warning check; 64 on Linux.  Only the name branch of the signal codec
reads it. -/
def SIGRTMAX : Nat := 64

/-- C INT32_MAX. -/
def INT32_MAX : Int := 2 ^ 31 - 1

/-- C INT32_MIN. -/
def INT32_MIN : Int := -(2 ^ 31)

/-- The error kinds returned by the embedded codecs.  EINVAL is the
INVALID_VALUE kind of the error taxonomy (PARSE_FUNC(INT32) returns the
bare errno). -/
inductive Err where
  | DATA_CONV_FAILED
  | DATA_EXPECTED_DICT
  | EINVAL
  | INVALID_NICE
  | INVALID_CORE_CNT
  | BAD_THREAD_PER_CORE
  | INVALID_TASK_MEMORY
  deriving DecidableEq

/-- Abstraction of a C double held in a data_t node: the embedded codecs
only inspect the infinite / NaN classification and, for finite values, the
integral part produced by a cast to an integer type. -/
inductive FloatV where
  | inf
  | neginf
  | nan
  | fin (z : Int)
  deriving DecidableEq

/-- The generic data-tree node (spec 6.1): null, bool, int64, float64,
string, list, dict. -/
inductive Data where
  | null
  | bool (b : Bool)
  | int (z : Int)
  | float (f : FloatV)
  | str (s : String)
  | list (xs : List Data)
  | dict (kvs : List (String × Data))

/-- Result of one embedded parse call: returned rc (none = SLURM_SUCCESS),
final destination value, warnings appended to the ambient args. -/
structure PRes (α : Type) where
  rc : Option Err
  dst : α
  warns : List String
  deriving DecidableEq

/-- C cast of a signed value to an unsigned w-bit integer. -/
def uintCast (w : Nat) (z : Int) : Nat := (z % ((2 : Int) ^ w)).toNat

/-- C cast of an unsigned 64-bit bit pattern to int64_t: the value that
data_set_int stores for a uint64 argument. -/
def toInt64 (n : Nat) : Int := if n < 2 ^ 63 then (n : Int) else (n : Int) - 2 ^ 64

/-- Accumulate a decimal digit string. -/
def decDigits : List Char → Option Nat
  | [] => some 0
  | c :: cs =>
    if c.isDigit then
      (decDigits cs).map (fun n => (c.toNat - 48) * 10 ^ cs.length + n)
    else none

/-- Parse a decimal integer literal, with an optional leading minus sign. -/
def parseIntLit (s : String) : Option Int :=
  match s.data with
  | [] => none
  | c :: cs =>
    if c = '-' then
      if cs.isEmpty then none else (decDigits cs).map (fun n => -(n : Int))
    else (decDigits (c :: cs)).map (fun n => (n : Int))

/-- Modelled from the spec (6.1): the in-place coercion of a data_t node to
int64 with a result status (src/common/data.c is not part of the excerpt).
Integer nodes convert to themselves and decimal integer literal strings to
their value; other nodes fail.  No other coercion outcome is reachable from
the embedded codecs in the claims considered here. -/
def convertToInt : Data → Option Int
  | .int z => some z
  | .str s => parseIntLit s
  | _ => none

/-- Modelled from the spec (6.1, 4.2 Boolean): coercion of a data_t node to
bool: native bool, int 0/1, or the strings true/false. -/
def convertToBool : Data → Option Bool
  | .bool b => some b
  | .int z => if z = 0 then some false else if z = 1 then some true else none
  | .str s => if s = "true" then some true else if s = "false" then some false else none
  | _ => none

/-- Look a key up in the association list of a dict node. -/
def dictGet (kvs : List (String × Data)) (k : String) : Option Data :=
  match kvs.find? (fun kv => kv.1 == k) with
  | some kv => some kv.2
  | none => none

/-- First fatal rc of a field sweep (the composite engine reports the first
error and keeps going, spec 7). -/
def firstErr : List (Option Err) → Option Err
  | [] => none
  | some e :: _ => some e
  | none :: rest => firstErr rest

/-- PARSE_FUNC(UINT64), parsers.c: null clears to 0, a node coercible to
int64 stores its uint64 cast, anything else fails with
ESLURM_DATA_CONV_FAILED and leaves the destination unwritten. -/
def parse_UINT64 (src : Data) (dst : Nat) : PRes Nat :=
  match src with
  | .null => ⟨none, 0, []⟩
  | _ =>
    match convertToInt src with
    | some z => ⟨none, uintCast 64 z, []⟩
    | none => ⟨some .DATA_CONV_FAILED, dst, []⟩

/-- DUMP_FUNC(UINT64), parsers.c: never emits the INF or NO_VAL sentinels,
dumping null for both. -/
def dump_UINT64 (src : Nat) : Data :=
  if src = NO_VAL64 ∨ src = INFINITE64 then .null else .int (toInt64 src)

/-- PARSE_FUNC(BOOL), parsers.c. -/
def parse_BOOL (src : Data) (dst : Bool) : PRes Bool :=
  match convertToBool src with
  | some b => ⟨none, b, []⟩
  | none => ⟨some .DATA_CONV_FAILED, dst, []⟩

/-- DUMP_FUNC(BOOL), parsers.c. -/
def dump_BOOL (b : Bool) : Data := .bool b

/-- UINT64_NO_VAL_t, parsers.c. -/
structure UINT64_NO_VAL_t where
  set : Bool
  infinite : Bool
  number : Nat
  deriving DecidableEq

/-- Modelled from the spec (4.4): the composite ARRAY-model engine applied
to the UINT64_NO_VAL_STRUCT field table of parsers.c (keys set, infinite,
number; none required): each present key is parsed into its field in table
order, absent keys leave the zero-initialised default, the first error is
the returned rc and the sweep continues. -/
def parse_UINT64_NO_VAL_STRUCT (src : Data) (dst : UINT64_NO_VAL_t) :
    PRes UINT64_NO_VAL_t :=
  match src with
  | .dict kvs =>
    let r1 : PRes Bool :=
      match dictGet kvs "set" with
      | none => ⟨none, dst.set, []⟩
      | some v => parse_BOOL v dst.set
    let r2 : PRes Bool :=
      match dictGet kvs "infinite" with
      | none => ⟨none, dst.infinite, []⟩
      | some v => parse_BOOL v dst.infinite
    let r3 : PRes Nat :=
      match dictGet kvs "number" with
      | none => ⟨none, dst.number, []⟩
      | some v => parse_UINT64 v dst.number
    ⟨firstErr [r1.rc, r2.rc, r3.rc], ⟨r1.dst, r2.dst, r3.dst⟩,
      r1.warns ++ r2.warns ++ r3.warns⟩
  | _ => ⟨some .DATA_EXPECTED_DICT, dst, []⟩

/-- Dump of the UINT64_NO_VAL_STRUCT field table (spec 4.4: every linked
field is dumped at its key in table order). -/
def dump_UINT64_NO_VAL_STRUCT (v : UINT64_NO_VAL_t) : Data :=
  .dict [("set", dump_BOOL v.set), ("infinite", dump_BOOL v.infinite),
         ("number", dump_UINT64 v.number)]

/-- PARSE_FUNC(UINT64_NO_VAL), parsers.c: null is unset; a float node goes
through PARSE_FUNC(FLOAT64_NO_VAL) (which for a float node is
data_get_float, inlined here) and maps infinite to INFINITE64, NaN to
NO_VAL64, finite values to their uint64 cast; a dict goes through the
struct table; a string must coerce to int64 and then, like an int node,
goes through PARSE_FUNC(UINT64); list and bool nodes fail. -/
def parse_UINT64_NO_VAL (src : Data) (dst : Nat) : PRes Nat :=
  match src with
  | .null => ⟨none, NO_VAL64, []⟩
  | .float f =>
    match f with
    | .inf => ⟨none, INFINITE64, []⟩
    | .neginf => ⟨none, INFINITE64, []⟩
    | .nan => ⟨none, NO_VAL64, []⟩
    | .fin z => ⟨none, uintCast 64 z, []⟩
  | .dict kvs =>
    let r := parse_UINT64_NO_VAL_STRUCT (.dict kvs) ⟨false, false, 0⟩
    match r.rc with
    | some e => ⟨some e, dst, r.warns⟩
    | none =>
      if r.dst.infinite then ⟨none, INFINITE64, r.warns⟩
      else if r.dst.set = false then ⟨none, NO_VAL64, r.warns⟩
      else if r.dst.set then ⟨none, r.dst.number, r.warns⟩
      else ⟨some .DATA_CONV_FAILED, dst, r.warns⟩
  | .str s =>
    match convertToInt (.str s) with
    | none => ⟨some .DATA_CONV_FAILED, dst, []⟩
    | some z => parse_UINT64 (.int z) dst
  | .int z => parse_UINT64 (.int z) dst
  | .list _ => ⟨some .DATA_CONV_FAILED, dst, []⟩
  | .bool _ => ⟨some .DATA_CONV_FAILED, dst, []⟩

/-- DUMP_FUNC(UINT64_NO_VAL), parsers.c: in complex mode the scalar forms
Infinity / null / number, otherwise the set-infinite-number object. -/
def dump_UINT64_NO_VAL (complexMode : Bool) (src : Nat) : Data :=
  if complexMode then
    if src = INFINITE64 then .str "Infinity"
    else if src = NO_VAL64 then .null
    else .int (toInt64 src)
  else
    dump_UINT64_NO_VAL_STRUCT
      (if src = INFINITE64 then ⟨false, true, 0⟩
       else if src = NO_VAL64 then ⟨false, false, 0⟩
       else ⟨true, false, src⟩)

/-- PARSE_FUNC(UINT16_NO_VAL), parsers.c: goes through the UINT64_NO_VAL
parse and then narrows: NO_VAL64 to NO_VAL16, anything at least NO_VAL to
INFINITE16, otherwise the uint16 cast of the number. -/
def parse_UINT16_NO_VAL (src : Data) (dst : Nat) : PRes Nat :=
  let r := parse_UINT64_NO_VAL src 0
  match r.rc with
  | some e => ⟨some e, dst, r.warns⟩
  | none =>
    if r.dst = NO_VAL64 then ⟨none, NO_VAL16, r.warns⟩
    else if r.dst ≥ NO_VAL then ⟨none, INFINITE16, r.warns⟩
    else ⟨none, r.dst % 2 ^ 16, r.warns⟩

/-- PARSE_FUNC(UINT32), parsers.c: null clears to 0; an int64 with any bit
above the low 32 set saturates to NO_VAL instead of rolling over, otherwise
the uint32 cast is stored. -/
def parse_UINT32 (src : Data) (dst : Nat) : PRes Nat :=
  match src with
  | .null => ⟨none, 0, []⟩
  | _ =>
    match convertToInt src with
    | some z =>
      if uintCast 64 z &&& 0xFFFFFFFF00000000 ≠ 0 then ⟨none, NO_VAL, []⟩
      else ⟨none, uintCast 32 z, []⟩
    | none => ⟨some .DATA_CONV_FAILED, dst, []⟩

/-- PARSE_FUNC(INT64), parsers.c: null clears to 0; otherwise the node must
coerce to int64. -/
def parse_INT64 (src : Data) (dst : Int) : PRes Int :=
  match src with
  | .null => ⟨none, 0, []⟩
  | _ =>
    match convertToInt src with
    | some z => ⟨none, z, []⟩
    | none => ⟨some .DATA_CONV_FAILED, dst, []⟩

/-- PARSE_FUNC(INT32), parsers.c: parses through PARSE_FUNC(INT64) and
range-checks the result against INT32_MIN..INT32_MAX, returning EINVAL and
leaving the destination unwritten when out of range. -/
def parse_INT32 (src : Data) (dst : Int) : PRes Int :=
  let r := parse_INT64 src 0
  match r.rc with
  | some e => ⟨some e, dst, r.warns⟩
  | none =>
    if r.dst > INT32_MAX ∨ r.dst < INT32_MIN then ⟨some .EINVAL, dst, r.warns⟩
    else ⟨none, r.dst, r.warns⟩

/-- PARSE_FUNC(NICE), parsers.c: parses through PARSE_FUNC(INT32); EINVAL
from that parse, or a magnitude above NICE_OFFSET - 3, is reported as
ESLURM_INVALID_NICE; otherwise the native field receives the on-wire value
plus NICE_OFFSET.  The native field is modelled as its unsigned 32-bit
pattern (the dump reads it through a uint32 pointer). -/
def parse_NICE (src : Data) (dst : Nat) : PRes Nat :=
  let r := parse_INT32 src 0
  if r.rc = some .EINVAL ∨ (r.rc = none ∧ (r.dst.natAbs : Int) > NICE_OFFSET - 3) then
    ⟨some .INVALID_NICE, dst, r.warns⟩
  else
    match r.rc with
    | none => ⟨none, uintCast 32 (r.dst + NICE_OFFSET), r.warns⟩
    | some e => ⟨some e, dst, r.warns⟩

/-- DUMP_FUNC(NICE), parsers.c: emits value minus NICE_OFFSET unless the
field holds NO_VAL or exactly NICE_OFFSET, which emit 0. -/
def dump_NICE (src : Nat) : Data :=
  let nice : Int := (src : Int)
  if nice ≠ (NO_VAL : Int) ∧ nice ≠ NICE_OFFSET then .int (nice - NICE_OFFSET)
  else .int 0

/-- Modelled from the spec (6.3: memory counts are integers in MiB;
str_to_mbytes of src/common is not part of the excerpt): a decimal literal
converts to its value, anything else yields the NO_VAL64 failure
sentinel. -/
def str_to_mbytes (s : String) : Nat :=
  match parseIntLit s with
  | some z => if 0 ≤ z then z.toNat else NO_VAL64
  | none => NO_VAL64

/-- Common tail of PARSE_FUNC(MEM_PER_CPUS), parsers.c: NO_VAL64 stays
unset, INFINITE64 stores 0 (0 acts as infinity), a value at or above
MEM_PER_CPU is an overflow error, otherwise the MEM_PER_CPU tag is ORed
in. -/
def memPerCpusStore (cpu_mem dst : Nat) : PRes Nat :=
  if cpu_mem = NO_VAL64 then ⟨none, NO_VAL64, []⟩
  else if cpu_mem = INFINITE64 then ⟨none, 0, []⟩
  else if cpu_mem ≥ MEM_PER_CPU then ⟨some .INVALID_TASK_MEMORY, dst, []⟩
  else ⟨none, MEM_PER_CPU ||| cpu_mem, []⟩

/-- PARSE_FUNC(MEM_PER_CPUS), parsers.c. -/
def parse_MEM_PER_CPUS (src : Data) (dst : Nat) : PRes Nat :=
  match src with
  | .null => ⟨none, NO_VAL64, []⟩
  | .str s =>
    let m := str_to_mbytes s
    if m = NO_VAL64 then ⟨some .DATA_CONV_FAILED, dst, []⟩
    else memPerCpusStore m dst
  | _ =>
    let r := parse_UINT64_NO_VAL src 0
    match r.rc with
    | some e => ⟨some e, dst, r.warns⟩
    | none =>
      let t := memPerCpusStore r.dst dst
      ⟨t.rc, t.dst, r.warns ++ t.warns⟩

/-- Common tail of PARSE_FUNC(MEM_PER_NODE), parsers.c: as for the per-CPU
variant but the plain value is stored, without the tag bit. -/
def memPerNodeStore (node_mem dst : Nat) : PRes Nat :=
  if node_mem = NO_VAL64 then ⟨none, NO_VAL64, []⟩
  else if node_mem = INFINITE64 then ⟨none, 0, []⟩
  else if node_mem ≥ MEM_PER_CPU then ⟨some .INVALID_TASK_MEMORY, dst, []⟩
  else ⟨none, node_mem, []⟩

/-- PARSE_FUNC(MEM_PER_NODE), parsers.c. -/
def parse_MEM_PER_NODE (src : Data) (dst : Nat) : PRes Nat :=
  match src with
  | .null => ⟨none, NO_VAL64, []⟩
  | .str s =>
    let m := str_to_mbytes s
    if m = NO_VAL64 then ⟨some .DATA_CONV_FAILED, dst, []⟩
    else memPerNodeStore m dst
  | _ =>
    let r := parse_UINT64_NO_VAL src 0
    match r.rc with
    | some e => ⟨some e, dst, r.warns⟩
    | none =>
      let t := memPerNodeStore r.dst dst
      ⟨t.rc, t.dst, r.warns ++ t.warns⟩

/-- DUMP_FUNC(MEM_PER_CPUS), parsers.c: when the MEM_PER_CPU tag is set the
untagged count is dumped as a UINT64_NO_VAL, otherwise the unset sentinel
is dumped. -/
def dump_MEM_PER_CPUS (complexMode : Bool) (mem : Nat) : Data :=
  let cpu_mem := if mem &&& MEM_PER_CPU ≠ 0 then mem &&& (MEM_PER_CPU - 1) else NO_VAL64
  dump_UINT64_NO_VAL complexMode cpu_mem

/-- DUMP_FUNC(MEM_PER_NODE), parsers.c: when the MEM_PER_CPU tag is clear
the field itself is dumped as a UINT64_NO_VAL, otherwise the unset sentinel
is dumped. -/
def dump_MEM_PER_NODE (complexMode : Bool) (mem : Nat) : Data :=
  let node_mem := if mem &&& MEM_PER_CPU = 0 then mem else NO_VAL64
  dump_UINT64_NO_VAL complexMode node_mem

/-- Modelled from the spec (4.4, 3.5): the two overloaded req_mem linked
fields of the slurmdb job record table (parsers.c, keys
required/memory_per_cpu then required/memory_per_node, in table order),
dumped by the composite engine: every linked field is dumped at its key. -/
def dump_job_req_mem (complexMode : Bool) (req_mem : Nat) : Data :=
  .dict [("required/memory_per_cpu", dump_MEM_PER_CPUS complexMode req_mem),
         ("required/memory_per_node", dump_MEM_PER_NODE complexMode req_mem)]

/-- Modelled from the spec (4.4): the composite engine parsing the same two
overloaded linked fields in table order; each key present in the input dict
is parsed into the shared req_mem field, an absent key is skipped. -/
def parse_job_req_mem (src : Data) (dst : Nat) : PRes Nat :=
  match src with
  | .dict kvs =>
    let r1 : PRes Nat :=
      match dictGet kvs "required/memory_per_cpu" with
      | none => ⟨none, dst, []⟩
      | some v => parse_MEM_PER_CPUS v dst
    let r2 : PRes Nat :=
      match dictGet kvs "required/memory_per_node" with
      | none => ⟨none, r1.dst, []⟩
      | some v => parse_MEM_PER_NODE v r1.dst
    ⟨firstErr [r1.rc, r2.rc], r2.dst, r1.warns ++ r2.warns⟩
  | _ => ⟨some .DATA_EXPECTED_DICT, dst, []⟩

/-- PARSE_FUNC(CORE_SPEC), parsers.c: an integer in (0, CORE_SPEC_THREAD)
is stored as the uint16 cast; out-of-range values fail with
ESLURM_INVALID_CORE_CNT. -/
def parse_CORE_SPEC (src : Data) (dst : Nat) : PRes Nat :=
  match convertToInt src with
  | none => ⟨some .DATA_CONV_FAILED, dst, []⟩
  | some z =>
    if z ≥ (CORE_SPEC_THREAD : Int) then ⟨some .INVALID_CORE_CNT, dst, []⟩
    else if z ≤ 0 then ⟨some .INVALID_CORE_CNT, dst, []⟩
    else ⟨none, uintCast 16 z, []⟩

/-- DUMP_FUNC(CORE_SPEC), parsers.c: emits the field unless the
CORE_SPEC_THREAD bit is set, in which case it emits 0. -/
def dump_CORE_SPEC (mem : Nat) : Data :=
  if mem &&& CORE_SPEC_THREAD = 0 then .int (mem : Int) else .int 0

/-- PARSE_FUNC(THREAD_SPEC), parsers.c: as PARSE_FUNC(CORE_SPEC) but fails
with ESLURM_BAD_THREAD_PER_CORE and ORs the CORE_SPEC_THREAD bit into the
stored value. -/
def parse_THREAD_SPEC (src : Data) (dst : Nat) : PRes Nat :=
  match convertToInt src with
  | none => ⟨some .DATA_CONV_FAILED, dst, []⟩
  | some z =>
    if z ≥ (CORE_SPEC_THREAD : Int) then ⟨some .BAD_THREAD_PER_CORE, dst, []⟩
    else if z ≤ 0 then ⟨some .BAD_THREAD_PER_CORE, dst, []⟩
    else ⟨none, uintCast 16 z ||| CORE_SPEC_THREAD, []⟩

/-- DUMP_FUNC(THREAD_SPEC), parsers.c: emits the field with the
CORE_SPEC_THREAD bit masked off when that bit is set, and 0 otherwise. -/
def dump_THREAD_SPEC (mem : Nat) : Data :=
  if mem &&& CORE_SPEC_THREAD ≠ 0 then .int ((mem &&& (CORE_SPEC_THREAD - 1) : Nat) : Int)
  else .int 0

/-- Modelled from the spec (4.2 Signal): sig_name2num of src/common is not
part of the excerpt; it resolves a standard signal name to its number and
returns 0 for an unknown name. -/
def sig_name2num (s : String) : Nat :=
  match ([("SIGHUP", 1), ("SIGINT", 2), ("SIGQUIT", 3), ("SIGABRT", 6),
          ("SIGKILL", 9), ("SIGUSR1", 10), ("SIGSEGV", 11), ("SIGUSR2", 12),
          ("SIGPIPE", 13), ("SIGALRM", 14), ("SIGTERM", 15), ("SIGCONT", 18),
          ("SIGSTOP", 19)] : List (String × Nat)).find? (fun p => p.1 == s) with
  | some p => p.2
  | none => 0

/-- Modelled from the spec (6.1): data_get_string_converted renders a node
as a string; only string nodes are reachable here because every node
coercible to int64 already took the integer branch. -/
def getStringConverted : Data → Option String
  | .str s => some s
  | _ => none

/-- PARSE_FUNC(SIGNAL), parsers.c: a node coercible to int64 stores its
uint16 cast directly and returns success (no further check); otherwise the
string form is resolved: the empty string stores NO_VAL16, an unknown name
stores 0 and returns the rc of the successful string conversion (0), a
resolved name outside 1..SIGRTMAX-1 stores the number with a non-standard
signal warning. -/
def parse_SIGNAL (src : Data) (dst : Nat) : PRes Nat :=
  match convertToInt src with
  | some z => ⟨none, uintCast 16 z, []⟩
  | none =>
    match getStringConverted src with
    | none => ⟨some .DATA_CONV_FAILED, dst, []⟩
    | some s =>
      if s = "" then ⟨none, NO_VAL16, []⟩
      else
        let g := sig_name2num s % 2 ^ 16
        if g = 0 then ⟨none, 0, []⟩
        else if g < 1 ∨ g ≥ SIGRTMAX then ⟨none, g, ["Non-standard signal number"]⟩
        else ⟨none, g, []⟩

/-- The fields of slurmdb_qos_rec_t read by DUMP_FUNC(QOS_ID). -/
structure QosRec where
  id : Nat
  name : String

/-- DUMP_FUNC(QOS_ID), parsers.c: a field of 0 or INFINITE dumps the empty
string in default mode and leaves the node untouched in complex mode,
returning success at once; otherwise the ambient QoS list is searched by
id: a hit with a non-empty name dumps the name, a hit without one dumps the
numeric id, and a miss dumps the literal Unknown with a warning in default
mode and leaves the node untouched in complex mode.  The result is the
final node value and the warnings appended. -/
def dump_QOS_ID (complexMode : Bool) (qos_list : List QosRec) (qos_id : Nat)
    (dst : Data) : Data × List String :=
  if qos_id = 0 ∨ qos_id = INFINITE then
    (if complexMode then dst else .str "", [])
  else
    match qos_list.find? (fun q => q.id == qos_id) with
    | some q =>
      if q.name ≠ "" then (.str q.name, [])
      else if q.id ≠ 0 then (.str (toString q.id), [])
      else if complexMode then (dst, []) else (.str "Unknown", ["Unknown QOS"])
    | none =>
      if complexMode then (dst, []) else (.str "Unknown", ["Unknown QOS"])

/-- Modelled from the spec (4.8): the burst-buffer per-job state machine is
the ordered sequence ALLOCATED, STAGING_IN, STAGED_IN, RUNNING,
STAGING_OUT, STAGED_OUT (the header with the numeric values is not part of
the excerpt); only the order matters to the purge sweep. -/
def BB_STATE_STAGED_OUT : Nat := 6

/-- The fields of bb_alloc_t read by _purge_bb_rec,
burst_buffer_generic.c. -/
structure BBAlloc where
  job_id : Nat
  state : Nat
  deriving DecidableEq

/-- One bucket pass of _purge_bb_rec: the first record whose job is gone
from slurmctld, has a non-zero job id and is at least staged out is
unlinked and freed, and the walk of that bucket stops (the C loop breaks
after one removal). -/
def purgeBucket (findJobRecord : Nat → Bool) : List BBAlloc → List BBAlloc
  | [] => []
  | r :: rest =>
    if r.job_id ≠ 0 ∧ r.state ≥ BB_STATE_STAGED_OUT ∧ findJobRecord r.job_id = false then
      rest
    else r :: purgeBucket findJobRecord rest

/-- The state held across calls of _purge_bb_rec: the static
time_last_purge and the bb_hash buckets. -/
structure PurgeState where
  time_last_purge : Nat
  bb_hash : List (List BBAlloc)
  deriving DecidableEq

/-- _purge_bb_rec, burst_buffer_generic.c: when more than 60 seconds have
passed since time_last_purge the sweep runs over every bucket; the returned
flag records whether the sweep ran.  The function never assigns
time_last_purge, exactly as the C does. -/
def purge_bb_rec (findJobRecord : Nat → Bool) (now : Nat) (st : PurgeState) :
    PurgeState × Bool :=
  if now - st.time_last_purge > 60 then
    (⟨st.time_last_purge, st.bb_hash.map (purgeBucket findJobRecord)⟩, true)
  else (st, false)

/-! ## Helper lemmas -/

/-- The bits of the high-32 mask used by PARSE_FUNC(UINT32). -/
theorem testBit_hi32_mask (i : Nat) :
    (0xFFFFFFFF00000000 : Nat).testBit i = (decide (32 ≤ i) && decide (i < 64)) := by
  have h : (0xFFFFFFFF00000000 : Nat) = (2 ^ 32 - 1) <<< 32 := by
    norm_num [Nat.shiftLeft_eq]
  rw [h, Nat.testBit_shiftLeft, Nat.testBit_two_pow_sub_one]
  by_cases h32 : 32 ≤ i
  · simp [h32]
    omega
  · simp [h32]

/-- For a uint64 value, the high-32 mask test of PARSE_FUNC(UINT32) is
exactly the test for a bit above the low 32. -/
theorem hi32_mask_eq_zero_iff (u : Nat) (hu : u < 2 ^ 64) :
    u &&& 0xFFFFFFFF00000000 = 0 ↔ u < 2 ^ 32 := by
  constructor
  · intro h
    apply Nat.lt_pow_two_of_testBit
    intro i hi
    by_contra hbit
    rw [Bool.not_eq_false] at hbit
    have hge := Nat.testBit_implies_ge hbit
    have hlt : i < 64 := by
      by_contra hc
      push_neg at hc
      have : (2 : Nat) ^ 64 ≤ 2 ^ i := Nat.pow_le_pow_right (by norm_num) hc
      omega
    have htrue : (u &&& 0xFFFFFFFF00000000).testBit i = true := by
      rw [Nat.testBit_land, hbit, testBit_hi32_mask]
      simp [hi, hlt]
    rw [h] at htrue
    simp [Nat.zero_testBit] at htrue
  · intro h
    apply Nat.eq_of_testBit_eq
    intro i
    rw [Nat.testBit_land, testBit_hi32_mask, Nat.zero_testBit]
    by_cases hi : 32 ≤ i
    · have : u < 2 ^ i := lt_of_lt_of_le h (Nat.pow_le_pow_right (by norm_num) hi)
      simp [Nat.testBit_eq_false_of_lt this]
    · simp [hi]

/-- A bit ORed into a value is set in the result. -/
theorem lor_and_self (u m : Nat) : (u ||| m) &&& m = m := by
  apply Nat.eq_of_testBit_eq
  intro i
  rw [Nat.testBit_land, Nat.testBit_lor]
  cases u.testBit i <;> cases m.testBit i <;> simp

/-- A value below a power of two has that bit clear. -/
theorem and_two_pow_of_lt (z n : Nat) (h : z < 2 ^ n) : z &&& 2 ^ n = 0 := by
  rw [Nat.and_two_pow, Nat.testBit_eq_false_of_lt h]
  simp

/-- The uint64 cast undoes the int64 cast for every 64-bit value. -/
theorem uintCast_toInt64 (v : Nat) (h : v < 2 ^ 64) : uintCast 64 (toInt64 v) = v := by
  unfold uintCast toInt64
  split <;> omega

/-- The struct form with set and a number parses back to the number. -/
theorem parse_struct_set_number (X : Int) (d : Nat) :
    parse_UINT64_NO_VAL
        (Data.dict [("set", Data.bool true), ("infinite", Data.bool false),
                    ("number", Data.int X)]) d =
      ⟨none, uintCast 64 X, []⟩ := rfl

/-- An int64 node parses as a UINT64_NO_VAL to its uint64 cast. -/
theorem parse_int_as_uint64_no_val (X : Int) (d : Nat) :
    parse_UINT64_NO_VAL (Data.int X) d = ⟨none, uintCast 64 X, []⟩ := rfl

/-! ## Claims -/

/-- C1 (counterexample): for the UINT64_NO_VAL codec in COMPLEX_VALUES
mode, the infinite value dumps to the string Infinity, and parsing that
dumped tree fails with DATA_CONV_FAILED (the string does not coerce to an
integer) instead of yielding the infinite value again; so the claimed
round-trip through the scalar form fails at the infinite value. -/
theorem uint64_no_val_complex_infinity_cex :
    dump_UINT64_NO_VAL true INFINITE64 = Data.str "Infinity" ∧
    parse_UINT64_NO_VAL (dump_UINT64_NO_VAL true INFINITE64) 0 =
      ⟨some Err.DATA_CONV_FAILED, 0, []⟩ :=
  ⟨rfl, rfl⟩

/-- C1 (amended): every UINT64_NO_VAL native value - set number, unset or
infinite - round-trips through the default object form, and in
COMPLEX_VALUES mode the set and unset values round-trip through the scalar
forms; the infinite value does not round-trip in COMPLEX_VALUES mode (its
dump, the string Infinity, is rejected by the parse). -/
theorem uint64_no_val_roundtrip (v d : Nat) (h : v < 2 ^ 64) :
    parse_UINT64_NO_VAL (dump_UINT64_NO_VAL false v) d = ⟨none, v, []⟩ ∧
    (v ≠ INFINITE64 →
      parse_UINT64_NO_VAL (dump_UINT64_NO_VAL true v) d = ⟨none, v, []⟩) := by
  by_cases h1 : v = INFINITE64
  · subst h1
    exact ⟨rfl, fun hc => absurd rfl hc⟩
  by_cases h2 : v = NO_VAL64
  · subst h2
    exact ⟨rfl, fun _ => rfl⟩
  · constructor
    · have hd : dump_UINT64_NO_VAL false v =
          Data.dict [("set", Data.bool true), ("infinite", Data.bool false),
                     ("number", Data.int (toInt64 v))] := by
        simp [dump_UINT64_NO_VAL, dump_UINT64_NO_VAL_STRUCT, dump_BOOL,
              dump_UINT64, h1, h2]
      rw [hd, parse_struct_set_number, uintCast_toInt64 v h]
    · intro _
      have hd : dump_UINT64_NO_VAL true v = Data.int (toInt64 v) := by
        simp [dump_UINT64_NO_VAL, h1, h2]
      rw [hd, parse_int_as_uint64_no_val, uintCast_toInt64 v h]

/-- C1 witness. -/
theorem uint64_no_val_roundtrip_witness :
    (4096 : Nat) < 2 ^ 64 ∧
    (parse_UINT64_NO_VAL (dump_UINT64_NO_VAL false 4096) 0 = ⟨none, 4096, []⟩ ∧
      ((4096 : Nat) ≠ INFINITE64 →
        parse_UINT64_NO_VAL (dump_UINT64_NO_VAL true 4096) 0 = ⟨none, 4096, []⟩)) :=
  ⟨by norm_num, uint64_no_val_roundtrip 4096 0 (by norm_num)⟩

/-- C2 (counterexample): dumping native req_mem = MEM_PER_CPU with count
4096 produces a dict in which the required/memory_per_node key is present
(bound to the unset object), and parsing the dumped dict back yields
NO_VAL64 - the trailing unset memory_per_node overwrites the shared native
field - rather than the original native value. -/
theorem mem_per_cpu_roundtrip_cex :
    dump_job_req_mem false (MEM_PER_CPU ||| 4096) =
      Data.dict
        [("required/memory_per_cpu",
          Data.dict [("set", Data.bool true), ("infinite", Data.bool false),
                     ("number", Data.int 4096)]),
         ("required/memory_per_node",
          Data.dict [("set", Data.bool false), ("infinite", Data.bool false),
                     ("number", Data.int 0)])] ∧
    parse_job_req_mem (dump_job_req_mem false (MEM_PER_CPU ||| 4096)) 0 =
      ⟨none, NO_VAL64, []⟩ ∧
    MEM_PER_CPU ||| 4096 ≠ NO_VAL64 :=
  ⟨rfl, rfl, by decide⟩

/-- C2 (amended): dumping native req_mem = MEM_PER_CPU with count 4096
produces required/memory_per_cpu = the set object with number 4096 and
required/memory_per_node = the unset object (the key is present); parsing a
dict holding only the memory_per_cpu key yields the original native value
MEM_PER_CPU with 4096. -/
theorem mem_per_cpu_overload_dump_parse :
    dump_job_req_mem false (MEM_PER_CPU ||| 4096) =
      Data.dict
        [("required/memory_per_cpu",
          Data.dict [("set", Data.bool true), ("infinite", Data.bool false),
                     ("number", Data.int 4096)]),
         ("required/memory_per_node",
          Data.dict [("set", Data.bool false), ("infinite", Data.bool false),
                     ("number", Data.int 0)])] ∧
    parse_job_req_mem
        (Data.dict [("required/memory_per_cpu",
          Data.dict [("set", Data.bool true), ("infinite", Data.bool false),
                     ("number", Data.int 4096)])]) 0 =
      ⟨none, MEM_PER_CPU ||| 4096, []⟩ :=
  ⟨rfl, rfl⟩

/-- C3: for the plain 32-bit unsigned codec, a null tree stores 0; an int64
input with any bit set above the low 32 bits (negative, or at least 2^32)
stores the NO_VAL sentinel instead of the truncated low 32 bits; an int64
whose high 32 bits are all zero is stored unchanged. -/
theorem uint32_parse_saturation (z : Int) (d : Nat)
    (h64a : -(2 ^ 63) ≤ z) (h64b : z < 2 ^ 63) :
    parse_UINT32 Data.null d = ⟨none, 0, []⟩ ∧
    (z < 0 ∨ 2 ^ 32 ≤ z → parse_UINT32 (Data.int z) d = ⟨none, NO_VAL, []⟩) ∧
    (0 ≤ z ∧ z < 2 ^ 32 → parse_UINT32 (Data.int z) d = ⟨none, z.toNat, []⟩) := by
  refine ⟨rfl, ?_, ?_⟩
  · intro hz
    have hu1 : 2 ^ 32 ≤ uintCast 64 z := by unfold uintCast; omega
    have hu2 : uintCast 64 z < 2 ^ 64 := by unfold uintCast; omega
    have hmask : uintCast 64 z &&& 0xFFFFFFFF00000000 ≠ 0 := by
      intro h0
      have := (hi32_mask_eq_zero_iff _ hu2).mp h0
      omega
    simp [parse_UINT32, convertToInt, hmask]
  · intro hz
    have hu2 : uintCast 64 z < 2 ^ 64 := by unfold uintCast; omega
    have hu1 : uintCast 64 z < 2 ^ 32 := by unfold uintCast; omega
    have hmask : uintCast 64 z &&& 0xFFFFFFFF00000000 = 0 :=
      (hi32_mask_eq_zero_iff _ hu2).mpr hu1
    have hstore : uintCast 32 z = z.toNat := by unfold uintCast; omega
    simp [parse_UINT32, convertToInt, hmask, hstore]

/-- C3 witness. -/
theorem uint32_parse_saturation_witness :
    -(2 ^ 63) ≤ (4294967296 : Int) ∧ (4294967296 : Int) < 2 ^ 63 ∧
    ((4294967296 : Int) < 0 ∨ (2 : Int) ^ 32 ≤ 4294967296) ∧
    parse_UINT32 (Data.int 4294967296) 0 = ⟨none, NO_VAL, []⟩ :=
  ⟨by norm_num, by norm_num, Or.inr (by norm_num),
    (uint32_parse_saturation 4294967296 0 (by norm_num) (by norm_num)).2.1
      (Or.inr (by norm_num))⟩

/-- C4: parsing nice = -10 stores NICE_OFFSET - 10 = 2147483638 (as the
unsigned 32-bit pattern of the native field); dumping a native nice equal
to NICE_OFFSET emits the integer 0; parsing nice = 2147483646 fails with
INVALID_NICE, as does every int64 whose magnitude exceeds
NICE_OFFSET - 3. -/
theorem nice_codec_scenarios (z : Int) (d : Nat)
    (_h64a : -(2 ^ 63) ≤ z) (_h64b : z < 2 ^ 63)
    (hbig : NICE_OFFSET - 3 < (z.natAbs : Int)) :
    parse_NICE (Data.int (-10)) d = ⟨none, 2147483638, []⟩ ∧
    dump_NICE 2147483648 = Data.int 0 ∧
    parse_NICE (Data.int 2147483646) d = ⟨some Err.INVALID_NICE, d, []⟩ ∧
    parse_NICE (Data.int z) d = ⟨some Err.INVALID_NICE, d, []⟩ := by
  refine ⟨rfl, rfl, rfl, ?_⟩
  by_cases hz : z > INT32_MAX ∨ z < INT32_MIN
  · simp [parse_NICE, parse_INT32, parse_INT64, convertToInt, hz]
  · push_neg at hz
    have hz1 : ¬ z > INT32_MAX := by omega
    have hz2 : ¬ z < INT32_MIN := by omega
    have habs : NICE_OFFSET - 3 < |z| := by
      rw [Int.abs_eq_natAbs]
      exact hbig
    simp [parse_NICE, parse_INT32, parse_INT64, convertToInt, hz1, hz2, hbig, habs]

/-- C4 witness. -/
theorem nice_codec_scenarios_witness :
    -(2 ^ 63) ≤ (2147483646 : Int) ∧ (2147483646 : Int) < 2 ^ 63 ∧
    NICE_OFFSET - 3 < (((2147483646 : Int).natAbs : Nat) : Int) ∧
    parse_NICE (Data.int 2147483646) 0 = ⟨some Err.INVALID_NICE, 0, []⟩ :=
  ⟨by norm_num, by norm_num, by norm_num [NICE_OFFSET],
    (nice_codec_scenarios 2147483646 0 (by norm_num) (by norm_num)
      (by norm_num [NICE_OFFSET])).2.2.2⟩

/-- C5: the code stores an integer signal input outside 1..SIGRTMAX-1, such
as 4097, and returns success, but it records no warning at all: the
non-standard-signal warning check sits only in the name branch of
PARSE_FUNC(SIGNAL), while the integer branch returns at once.  This
theorem evaluates the embedded code at the failing input. -/
theorem signal_parse_int_4097_no_warning (d : Nat) :
    parse_SIGNAL (Data.int 4097) d = ⟨none, 4097, []⟩ := rfl

/-- C6: the signed 32-bit codec goes through the signed 64-bit parse
(visible in the hypothesis, which feeds its result in) and range-checks
against INT32_MIN..INT32_MAX; every input whose int64 value is out of that
range yields the EINVAL (INVALID_VALUE) error kind with the destination
left unwritten, for every previous destination value d. -/
theorem int32_parse_range_check (src : Data) (z d : Int)
    (hparse : parse_INT64 src 0 = ⟨none, z, []⟩)
    (hout : z > INT32_MAX ∨ z < INT32_MIN) :
    parse_INT32 src d = ⟨some Err.EINVAL, d, []⟩ := by
  unfold parse_INT32
  rw [hparse]
  simp [hout]

/-- C6 witness. -/
theorem int32_parse_range_check_witness :
    parse_INT64 (Data.int 2147483648) 0 = ⟨none, 2147483648, []⟩ ∧
    ((2147483648 : Int) > INT32_MAX ∨ (2147483648 : Int) < INT32_MIN) ∧
    parse_INT32 (Data.int 2147483648) 0 = ⟨some Err.EINVAL, 0, []⟩ :=
  ⟨rfl, Or.inl (by norm_num [INT32_MAX]),
    int32_parse_range_check (Data.int 2147483648) 2147483648 0 rfl
      (Or.inl (by norm_num [INT32_MAX]))⟩

/-- C7: core-spec and thread-spec share one 16-bit field: parsing a
thread-spec in range stores the value with the CORE_SPEC_THREAD bit set,
parsing a core-spec stores it with the bit clear, and for every field value
the dump of the variant whose discriminant does not hold emits the integer
0. -/
theorem core_thread_spec_discriminant (z : Int) (v d : Nat)
    (hz0 : 0 < z) (hz : z < (CORE_SPEC_THREAD : Int)) :
    (parse_THREAD_SPEC (Data.int z) d = ⟨none, z.toNat ||| CORE_SPEC_THREAD, []⟩ ∧
      (z.toNat ||| CORE_SPEC_THREAD) &&& CORE_SPEC_THREAD ≠ 0) ∧
    (parse_CORE_SPEC (Data.int z) d = ⟨none, z.toNat, []⟩ ∧
      z.toNat &&& CORE_SPEC_THREAD = 0) ∧
    (v &&& CORE_SPEC_THREAD ≠ 0 → dump_CORE_SPEC v = Data.int 0) ∧
    (v &&& CORE_SPEC_THREAD = 0 → dump_THREAD_SPEC v = Data.int 0) := by
  have hcast : ((CORE_SPEC_THREAD : Nat) : Int) = 32768 := by
    norm_num [CORE_SPEC_THREAD]
  have h15 : CORE_SPEC_THREAD = 2 ^ 15 := by norm_num [CORE_SPEC_THREAD]
  have hnge : ¬ z ≥ (CORE_SPEC_THREAD : Int) := by omega
  have hnle : ¬ z ≤ 0 := by omega
  have hcastv : uintCast 16 z = z.toNat := by unfold uintCast; omega
  refine ⟨⟨?_, ?_⟩, ⟨?_, ?_⟩, ?_, ?_⟩
  · simp [parse_THREAD_SPEC, convertToInt, hnge, hnle, hcastv]
  · rw [lor_and_self, h15]
    positivity
  · simp [parse_CORE_SPEC, convertToInt, hnge, hnle, hcastv]
  · rw [h15]
    exact and_two_pow_of_lt _ _ (by omega)
  · intro hbit
    simp [dump_CORE_SPEC, hbit]
  · intro hbit
    simp [dump_THREAD_SPEC, hbit]

/-- C7 witness. -/
theorem core_thread_spec_discriminant_witness :
    (0 : Int) < 2 ∧ (2 : Int) < (CORE_SPEC_THREAD : Int) ∧
    ((0x8002 : Nat) &&& CORE_SPEC_THREAD ≠ 0 ∧ dump_CORE_SPEC 0x8002 = Data.int 0) ∧
    parse_THREAD_SPEC (Data.int 2) 0 = ⟨none, (2 : Int).toNat ||| CORE_SPEC_THREAD, []⟩ :=
  ⟨by norm_num, by norm_num [CORE_SPEC_THREAD],
    ⟨by decide,
      ((core_thread_spec_discriminant 2 0x8002 0 (by norm_num)
        (by norm_num [CORE_SPEC_THREAD])).2.2.1 (by decide))⟩,
    ((core_thread_spec_discriminant 2 0x8002 0 (by norm_num)
      (by norm_num [CORE_SPEC_THREAD])).1).1⟩

/-- C8: the purge sweep is gated on more than 60 seconds since
time_last_purge, but the code never assigns time_last_purge (its own
comment says once per minute), so two invocations only 30 seconds apart
both perform purge work: here the first call removes one staged-out orphan
record and the second call, 30 seconds later, runs the sweep again and
removes another. -/
theorem purge_bb_rec_runs_again_within_minute :
    (1030 : Nat) - 1000 < 60 ∧
    purge_bb_rec (fun _ => false) 1000 ⟨0, [[⟨7, 6⟩, ⟨8, 6⟩]]⟩ =
      (⟨0, [[⟨8, 6⟩]]⟩, true) ∧
    purge_bb_rec (fun _ => false) 1030
        (purge_bb_rec (fun _ => false) 1000 ⟨0, [[⟨7, 6⟩, ⟨8, 6⟩]]⟩).1 =
      (⟨0, [[]]⟩, true) :=
  ⟨by norm_num, rfl, rfl⟩

/-- C9: the UINT16_NO_VAL codec maps a plain int64 numeric input, read as
its uint64 cast n, to NO_VAL16 when n is NO_VAL64, to INFINITE16 when n is
at least NO_VAL, and otherwise to n truncated modulo 2^16, always with
success and without any warning. -/
theorem uint16_no_val_parse_truncation (z : Int) (d : Nat)
    (_h64a : -(2 ^ 63) ≤ z) (_h64b : z < 2 ^ 63) :
    parse_UINT16_NO_VAL (Data.int z) d =
      ⟨none,
        if uintCast 64 z = NO_VAL64 then NO_VAL16
        else if uintCast 64 z ≥ NO_VAL then INFINITE16
        else uintCast 64 z % 2 ^ 16, []⟩ := by
  have hstep : parse_UINT16_NO_VAL (Data.int z) d =
      (if uintCast 64 z = NO_VAL64 then ⟨none, NO_VAL16, []⟩
       else if uintCast 64 z ≥ NO_VAL then ⟨none, INFINITE16, []⟩
       else ⟨none, uintCast 64 z % 2 ^ 16, []⟩ : PRes Nat) := by
    unfold parse_UINT16_NO_VAL
    rw [parse_int_as_uint64_no_val]
  rw [hstep]
  split_ifs <;> rfl

/-- C9 witness: 70000 lies strictly between 0xFFFF and 0xFFFFFFFF and is
truncated to 70000 mod 2^16 = 4464. -/
theorem uint16_no_val_parse_truncation_witness :
    -(2 ^ 63) ≤ (70000 : Int) ∧ (70000 : Int) < 2 ^ 63 ∧
    parse_UINT16_NO_VAL (Data.int 70000) 0 =
      ⟨none,
        if uintCast 64 70000 = NO_VAL64 then NO_VAL16
        else if uintCast 64 70000 ≥ NO_VAL then INFINITE16
        else uintCast 64 70000 % 2 ^ 16, []⟩ ∧
    (if uintCast 64 70000 = NO_VAL64 then NO_VAL16
     else if uintCast 64 70000 ≥ NO_VAL then INFINITE16
     else uintCast 64 70000 % 2 ^ 16) = 4464 :=
  ⟨by norm_num, by norm_num,
    uint16_no_val_parse_truncation 70000 0 (by norm_num) (by norm_num),
    by decide⟩

/-- C10: dumping a QOS_ID of 0 or INFINITE emits the empty string in
default mode, leaves the node untouched in complex mode, and records no
warning, independently of the ambient QoS list (so the resolver is not
consulted); conversely a non-empty warning list implies default mode, an id
that is neither 0 nor INFINITE, and a QoS list in which the id resolves to
nothing. -/
theorem qos_id_dump_sentinels (complexMode : Bool) (qos_list : List QosRec)
    (dst : Data) (qos_id : Nat) :
    (qos_id = 0 ∨ qos_id = INFINITE →
      dump_QOS_ID complexMode qos_list qos_id dst =
        ((if complexMode then dst else Data.str ""), [])) ∧
    ((dump_QOS_ID complexMode qos_list qos_id dst).2 ≠ [] →
      complexMode = false ∧ qos_id ≠ 0 ∧ qos_id ≠ INFINITE ∧
      qos_list.find? (fun q => q.id == qos_id) = none) := by
  constructor
  · intro h
    simp [dump_QOS_ID, h]
  · intro hw
    by_cases hs0 : qos_id = 0 ∨ qos_id = INFINITE
    · exact absurd (by simp [dump_QOS_ID, hs0]) hw
    push_neg at hs0
    rcases hfind : qos_list.find? (fun q => q.id == qos_id) with _ | q
    · by_cases hc : complexMode = true
      · exact absurd (by simp [dump_QOS_ID, hs0.1, hs0.2, hfind, hc]) hw
      · exact ⟨by simpa using hc, hs0.1, hs0.2, hfind⟩
    · have hq : q.id = qos_id := by simpa using List.find?_some hfind
      by_cases hname : q.name = ""
      · have hid : q.id ≠ 0 := by rw [hq]; exact hs0.1
        exact absurd (by simp [dump_QOS_ID, hs0.1, hs0.2, hfind, hname, hid]) hw
      · exact absurd (by simp [dump_QOS_ID, hs0.1, hs0.2, hfind, hname]) hw

/-- C10 witness. -/
theorem qos_id_dump_sentinels_witness :
    ((0 : Nat) = 0 ∨ (0 : Nat) = INFINITE) ∧
    dump_QOS_ID false [⟨5, "normal"⟩] 0 Data.null = (Data.str "", []) :=
  ⟨Or.inl rfl,
    (qos_id_dump_sentinels false [⟨5, "normal"⟩] Data.null 0).1 (Or.inl rfl)⟩

end Slurm
